import Mathlib

/-!
Shallow embedding of the CRATE repository (crate.py and data.py) and proofs
of the specification claims about it.

Tensors over a field are modelled as functions out of finite index types or
as Mathlib matrices; torch primitives used by the code (F.linear, F.relu,
nn.Softmax) are modelled by their mathematical definitions.  Where a claim
hinges on Python call semantics (number of positional arguments accepted by
a def), those semantics are modelled explicitly by a small signature-binding
model, because crate.py contains calls whose argument lists do not match the
callee signature.
-/

set_option maxHeartbeats 1000000

/-! ### Python call-binding model

crate.py line 152 calls `Transformer(dim, depth, heads, dim_head, dropout,
ista=ista)` although `Transformer.__init__(self, cfg, ista=0.1)` accepts a
single positional parameter besides `self`; and `PreNorm.forward` calls
`self.fn(self.norm(x))` although `Attention.forward(self, x, mask)` requires
`mask` positionally.  To settle the claims about those calls we model how
CPython binds a call with `nPos` positional arguments and keyword arguments
`kw` against a signature: binding succeeds iff there are not more positional
arguments than parameters, every keyword names a parameter, and every
parameter without a default value is bound.  A failed binding raises
TypeError before the callee body runs. -/

structure PySig where
  /-- Parameter names after `self`, in order. -/
  params : List String
  /-- Number of trailing parameters that carry a default value. -/
  defaults : Nat
deriving DecidableEq

def PySig.binds (s : PySig) (nPos : Nat) (kw : List String) : Bool :=
  decide (nPos ≤ s.params.length) &&
  kw.all (fun k => s.params.contains k) &&
  (List.range (s.params.length - s.defaults)).all
    (fun i => decide (i < nPos) || kw.contains (s.params.getD i ""))

/-- Errors raised during the modelled Python execution. -/
inductive PyError where
  | assertionError (msg : String)
  | typeError
deriving DecidableEq

/-- Signature of `Transformer.__init__(self, cfg, ista=0.1)` (crate.py line 101). -/
def Transformer.initSig : PySig := ⟨["cfg", "ista"], 1⟩

/-- Signature of `Attention.forward(self, x, mask)` (crate.py line 63):
`mask` has no default value. -/
def Attention.forwardSig : PySig := ⟨["x", "mask"], 0⟩

/-! ### pair and CRATE construction (crate.py lines 9-10 and 129-160) -/

/-- `pair(t)`: returns `t` if it is a tuple, else `(t, t)`. -/
def pair (t : Nat ⊕ (Nat × Nat)) : Nat × Nat :=
  match t with
  | Sum.inl n => (n, n)
  | Sum.inr p => p

/-- The data computed by `CRATE.__init__` that later shapes depend on. -/
structure CRATEModel where
  numPatches : Nat
  patchDim : Nat
  pool : String
deriving DecidableEq

/-- Embedding of `CRATE.__init__` (crate.py lines 130-160).  It asserts
divisibility of the image dimensions by the patch dimensions (line 135),
asserts the pool mode (line 139), and then executes
`Transformer(dim, depth, heads, dim_head, dropout, ista=ista)` (line 152),
a call with 5 positional arguments and the keyword `ista` bound against
`Transformer.initSig`.  The numeric hyperparameters that do not influence
control flow are still taken as arguments to mirror the signature. -/
def CRATE.init (imageSize patchSize : Nat ⊕ (Nat × Nat))
    (numClasses dim depth heads : Nat) (pool : String)
    (channels dimHead : Nat) (dropout embDropout ista : ℚ) :
    Except PyError CRATEModel :=
  let ih := (pair imageSize).1
  let iw := (pair imageSize).2
  let ph := (pair patchSize).1
  let pw := (pair patchSize).2
  if ih % ph = 0 ∧ iw % pw = 0 then
    let numPatches := (ih / ph) * (iw / pw)
    let patchDim := channels * ph * pw
    if pool = "cls" ∨ pool = "mean" then
      if Transformer.initSig.binds 5 ["ista"] then
        Except.ok { numPatches := numPatches, patchDim := patchDim, pool := pool }
      else
        Except.error PyError.typeError
    else
      Except.error (PyError.assertionError
        "pool type must be either cls (cls token) or mean (mean pooling)")
  else
    Except.error (PyError.assertionError
      "Image dimensions must be divisible by the patch size.")

/-- Embedding of `CRATE_tiny` (crate.py lines 180-189): image 224, patch 16,
dim 384, depth 12, heads 6, default pool, channels 3, dim_head 384//6. -/
def CRATE_tiny (numClasses : Nat) : Except PyError CRATEModel :=
  CRATE.init (Sum.inl 224) (Sum.inl 16) numClasses 384 12 6 "cls" 3 (384 / 6) 0 0 (1/10)

/-! ### PreNorm dispatch (crate.py lines 12-21)

`PreNorm.forward(self, x, mask=None)` calls `self.fn(self.norm(x), mask)`
when a mask is given and `self.fn(self.norm(x))` otherwise; the inner call
is bound against the signature of the wrapped forward method. -/

def PreNorm.forwardCall {α β : Type} (fnSig : PySig)
    (fn : α → Option (List Bool) → β) (norm : α → α)
    (x : α) (mask : Option (List Bool)) : Except PyError β :=
  match mask with
  | some m =>
      if fnSig.binds 2 [] then Except.ok (fn (norm x) (some m))
      else Except.error PyError.typeError
  | none =>
      if fnSig.binds 1 [] then Except.ok (fn (norm x) none)
      else Except.error PyError.typeError

/-! ### torch primitives used by FeedForward -/

/-- `F.linear(x, w, bias=None)` computes `x` times the transpose of `w`. -/
def F.linear {n dIn dOut : ℕ} (x : Matrix (Fin n) (Fin dIn) ℚ)
    (w : Matrix (Fin dOut) (Fin dIn) ℚ) : Matrix (Fin n) (Fin dOut) ℚ :=
  x * w.transpose

/-- `F.relu` applied elementwise. -/
def F.relu {n m : ℕ} (x : Matrix (Fin n) (Fin m) ℚ) : Matrix (Fin n) (Fin m) ℚ :=
  Matrix.of fun i j => max (x i j) 0

/-! ### FeedForward (crate.py lines 23-42) -/

/-- State stored by `FeedForward.__init__`: the dim by dim dictionary
parameter, the step size, and the hardcoded `lambd`.  Neither `hidden_dim`
nor `dropout` is stored. -/
structure FeedForward (dim : ℕ) where
  weight : Matrix (Fin dim) (Fin dim) ℚ
  step_size : ℚ
  lambd : ℚ

/-- Embedding of `FeedForward.__init__(dim, hidden_dim, dropout, step_size)`
(crate.py lines 24-30).  The random kaiming initialisation of
`self.weight` is modelled by taking the drawn matrix as the argument
`weight`; `self.lambd` is set to the literal 0.1; `hidden_dim` and
`dropout` are accepted and ignored, as in the source. -/
def FeedForward.init (dim hiddenDim : ℕ) (dropout step_size : ℚ)
    (weight : Matrix (Fin dim) (Fin dim) ℚ) : FeedForward dim :=
  { weight := weight, step_size := step_size, lambd := 1/10 }

/-- Embedding of `FeedForward.forward` (crate.py lines 32-42):
`x1 = F.linear(x, weight)`, `grad_1 = F.linear(x1, weight.t())`,
`grad_2 = F.linear(x, weight.t())`,
`grad_update = step_size * (grad_2 - grad_1) - step_size * lambd`
(the scalar product broadcasts and the scalar subtraction broadcasts
elementwise), `output = F.relu(x + grad_update)`. -/
def FeedForward.forward {dim : ℕ} (ff : FeedForward dim) {n : ℕ}
    (x : Matrix (Fin n) (Fin dim) ℚ) : Matrix (Fin n) (Fin dim) ℚ :=
  let x1 := F.linear x ff.weight
  let grad_1 := F.linear x1 ff.weight.transpose
  let grad_2 := F.linear x ff.weight.transpose
  let grad_update :=
    Matrix.of fun i j => ff.step_size * (grad_2 i j - grad_1 i j) - ff.step_size * ff.lambd
  F.relu (x + grad_update)

/-! ### Transformer layer loop (crate.py lines 119-127)

`Transformer.forward` runs, for each `(attn, ff)` pair of the layer list,
`grad_x = attn(x, mask) + x` followed by `x = ff(grad_x)`.  The two wrapped
modules of one layer are modelled as functions on the representation type
(the mask argument of the attention wrapper is already applied). -/

def Transformer.runLayers {M : Type} [Add M] :
    List ((M → M) × (M → M)) → M → M
  | [], x => x
  | (attn, ff) :: rest, x => Transformer.runLayers rest (ff (attn x + x))

/-! ### Corpus preprocessor (data.py lines 8-11)

The script iterates over the text lines of the dataset and writes each line
`i` to the output file, after replacing `i` by a bare newline whenever
`len(re.findall(" = ", i)) > 1`.  `re.findall` with a literal pattern
counts non-overlapping occurrences scanning left to right, which
`countMatches` reproduces (with explicit fuel so that it is structural). -/

def countMatchesAux (pat : List Char) : Nat → List Char → Nat
  | 0, _ => 0
  | _ + 1, [] => 0
  | fuel + 1, c :: rest =>
    if pat.isPrefixOf (c :: rest) then
      1 + countMatchesAux pat fuel (rest.drop (pat.length - 1))
    else
      countMatchesAux pat fuel rest

/-- Number of non-overlapping occurrences of `pat` in `s`, leftmost first. -/
def countMatches (pat s : List Char) : Nat :=
  countMatchesAux pat s.length s

/-- The body of the loop of data.py: a line is replaced by a newline when
the count of `" = "` occurrences exceeds 1, else kept verbatim. -/
def processLine (line : String) : String :=
  if countMatches " = ".toList line.toList > 1 then "\n" else line

/-- The whole script: the processed lines are written to the file in order,
so the file content is their concatenation. -/
def processCorpus (lines : List String) : String :=
  String.join (lines.map processLine)

/-! ### Attention (crate.py lines 44-77), over the reals

`forward` computes `w = rearrange(qkv(x), b n (h d) -> b h n d)`,
`dots = matmul(w, w.transpose(-1, -2)) * scale`, `attn = softmax(dots)`
rowwise, then (dropout being the identity: every CRATE preset constructs
its attention blocks with dropout probability 0, and `nn.Dropout(0)` maps
its input unchanged) `attn = attn * (1 - mask.float())` with the mask
broadcast over query positions, and finally `out = matmul(attn, w)`. -/

/-- Flattened index of head `h`, coordinate `d` in the `(h d)` axis of the
einops rearrange `b n (h d) -> b h n d`. -/
def flatIdx {heads dimHead : ℕ} (h : Fin heads) (d : Fin dimHead) :
    Fin (heads * dimHead) :=
  ⟨h.1 * dimHead + d.1, by
    calc h.1 * dimHead + d.1 < h.1 * dimHead + dimHead := by omega
    _ = (h.1 + 1) * dimHead := by ring
    _ ≤ heads * dimHead := Nat.mul_le_mul_right dimHead h.2⟩

/-- The tensor `w` of crate.py line 64: `self.qkv` is a bias-free linear
layer with weight `qkvW`, whose output channel `h*dimHead + d` at batch `b`,
position `p` becomes `w[b, h, p, d]`. -/
noncomputable def Attention.w {B N dim heads dimHead : ℕ}
    (qkvW : Matrix (Fin (heads * dimHead)) (Fin dim) ℝ)
    (x : Fin B → Fin N → Fin dim → ℝ)
    (b : Fin B) (h : Fin heads) (p : Fin N) (d : Fin dimHead) : ℝ :=
  ∑ k, x b p k * qkvW (flatIdx h d) k

/-- The scaling factor `dim_head ** -0.5` of crate.py line 51. -/
noncomputable def Attention.scale (dimHead : ℕ) : ℝ :=
  (dimHead : ℝ) ^ ((-1 : ℝ) / 2)

/-- The tensor `dots` of crate.py line 66:
`torch.matmul(w, w.transpose(-1, -2)) * self.scale`. -/
noncomputable def Attention.dots {B N dim heads dimHead : ℕ}
    (qkvW : Matrix (Fin (heads * dimHead)) (Fin dim) ℝ)
    (x : Fin B → Fin N → Fin dim → ℝ)
    (b : Fin B) (h : Fin heads) (i j : Fin N) : ℝ :=
  (∑ d, Attention.w qkvW x b h i d * Attention.w qkvW x b h j d) *
    Attention.scale dimHead

/-- Rowwise softmax, the meaning of `nn.Softmax(dim = -1)` on one row. -/
noncomputable def softmaxRow {n : ℕ} (v : Fin n → ℝ) (j : Fin n) : ℝ :=
  Real.exp (v j) / ∑ k, Real.exp (v k)

/-- `mask.float()`: booleans become 0.0 or 1.0. -/
def maskFloat (b : Bool) : ℝ := if b then 1 else 0

/-- The attention matrix used to form the output when a mask is supplied
(crate.py lines 68-72): softmax of the score rows, then the multiplicative
suppression `attn * (1 - mask[:, None, None, :].float())`, the mask being
shared by all heads and query positions of one batch element. -/
noncomputable def Attention.attnMasked {B H N : ℕ}
    (dots : Fin B → Fin H → Fin N → Fin N → ℝ) (mask : Fin B → Fin N → Bool)
    (b : Fin B) (h : Fin H) (i j : Fin N) : ℝ :=
  softmaxRow (dots b h i) j * (1 - maskFloat (mask b j))

/-! ### Theorems -/

/-- C1: the claim fails on the code.  `CRATE.__init__` (crate.py line 152)
passes five positional arguments to `Transformer.__init__`, which accepts
only `cfg` and `ista`, so `CRATE_tiny()` raises TypeError during
construction and no forward pass of shape (2, 3, 224, 224) to (2, 1000)
can ever run. -/
theorem CRATE_tiny_raises_typeError :
    CRATE_tiny 1000 = Except.error PyError.typeError := rfl

/-- C2: the claim fails on the code.  Construction indeed aborts on the two
assertions, but it also aborts (with TypeError at the
`Transformer(dim, depth, heads, dim_head, dropout, ista=ista)` call) for
every configuration that satisfies both assertions, so no configuration at
all constructs successfully. -/
theorem CRATE_init_never_succeeds (imageSize patchSize : Nat ⊕ (Nat × Nat))
    (numClasses dim depth heads : Nat) (pool : String)
    (channels dimHead : Nat) (dropout embDropout ista : ℚ) :
    ∃ e, CRATE.init imageSize patchSize numClasses dim depth heads pool
        channels dimHead dropout embDropout ista = Except.error e := by
  have hb : Transformer.initSig.binds 5 ["ista"] = false := by decide
  unfold CRATE.init
  by_cases hdiv : (pair imageSize).1 % (pair patchSize).1 = 0 ∧
      (pair imageSize).2 % (pair patchSize).2 = 0
  · by_cases hpool : pool = "cls" ∨ pool = "mean"
    · exact ⟨PyError.typeError, by simp [hdiv, hpool, hb]⟩
    · exact ⟨PyError.assertionError
        "pool type must be either cls (cls token) or mean (mean pooling)",
        by simp [hdiv, hpool]⟩
  · exact ⟨PyError.assertionError
        "Image dimensions must be divisible by the patch size.",
        by simp [hdiv]⟩

/-- C3: confirmed.  The feed-forward block computes
`ReLU(x + s * (x*D - (x*Dt)*D) - s * lambda)` elementwise with the
dictionary `D`, `x1 = x*Dt`, `grad_1 = x1*D`, `grad_2 = x*D` and
`lambda = 0.1`. -/
theorem FeedForward_forward_formula (dim hiddenDim n : ℕ)
    (dropout stepSize : ℚ) (D : Matrix (Fin dim) (Fin dim) ℚ)
    (x : Matrix (Fin n) (Fin dim) ℚ) :
    FeedForward.forward (FeedForward.init dim hiddenDim dropout stepSize D) x
      = Matrix.of fun i j =>
          max (x i j + (stepSize * ((x * D) i j - (x * D.transpose * D) i j)
            - stepSize * (1 / 10))) 0 := by
  ext i j
  simp [FeedForward.forward, FeedForward.init, F.linear, F.relu,
    Matrix.transpose_transpose, Matrix.add_apply, Matrix.sub_apply]

/-- C4: the claim fails on the code.  `PreNorm.forward` does omit the mask
argument when none is supplied, but `Attention.forward(self, x, mask)`
declares `mask` without a default value, so the delegated call binds only
one argument against two required parameters and raises TypeError instead
of computing unmasked self-attention. -/
theorem PreNorm_attention_without_mask_raises (α β : Type)
    (fn : α → Option (List Bool) → β) (norm : α → α) (x : α) :
    PreNorm.forwardCall Attention.forwardSig fn norm x none
      = Except.error PyError.typeError := by
  have hb : Attention.forwardSig.binds 1 [] = false := by decide
  simp [PreNorm.forwardCall, hb]

/-- C8: confirmed.  With the zero dictionary the reconstruction terms
vanish and the block returns `ReLU(x - step_size * 0.1)` elementwise. -/
theorem FeedForward_zero_dictionary (dim hiddenDim n : ℕ)
    (dropout stepSize : ℚ) (x : Matrix (Fin n) (Fin dim) ℚ) :
    FeedForward.forward (FeedForward.init dim hiddenDim dropout stepSize 0) x
      = Matrix.of fun i j => max (x i j - stepSize * (1 / 10)) 0 := by
  ext i j
  simp [FeedForward.forward, FeedForward.init, F.linear, F.relu,
    Matrix.transpose_zero, Matrix.mul_zero, Matrix.add_apply]
  congr 1
  ring

/-- C9: confirmed.  The constructor stores nothing derived from its
`dropout` argument and the forward pass applies no dropout, so two blocks
that differ only in that argument agree on every input. -/
theorem FeedForward_dropout_unused (dim hiddenDim n : ℕ) (d1 d2 stepSize : ℚ)
    (W : Matrix (Fin dim) (Fin dim) ℚ) (x : Matrix (Fin n) (Fin dim) ℚ) :
    FeedForward.forward (FeedForward.init dim hiddenDim d1 stepSize W) x
      = FeedForward.forward (FeedForward.init dim hiddenDim d2 stepSize W) x := rfl

/-- Every entry of a softmax row is strictly positive. -/
theorem softmaxRow_pos {n : ℕ} (v : Fin n → ℝ) (j : Fin n) :
    0 < softmaxRow v j := by
  have hpos : 0 < ∑ k, Real.exp (v k) := by
    haveI : Nonempty (Fin n) := ⟨j⟩
    exact Finset.sum_pos (fun k _ => Real.exp_pos (v k)) Finset.univ_nonempty
  exact div_pos (Real.exp_pos (v j)) hpos

/-- A nonempty softmax row sums to one. -/
theorem softmaxRow_sum {n : ℕ} (hn : 0 < n) (v : Fin n → ℝ) :
    ∑ j, softmaxRow v j = 1 := by
  haveI : Nonempty (Fin n) := Fin.pos_iff_nonempty.mp hn
  have hpos : 0 < ∑ k, Real.exp (v k) :=
    Finset.sum_pos (fun k _ => Real.exp_pos (v k)) Finset.univ_nonempty
  unfold softmaxRow
  rw [← Finset.sum_div]
  exact div_self (ne_of_gt hpos)

/-- C5: confirmed.  When the mask marks key position `j` of batch element
`b`, the attention matrix actually multiplied with `w` has exactly zero in
every entry of column `j` (for every head and query position), and since
the mask is applied multiplicatively after softmax with no renormalization,
every row sums to strictly less than 1 (softmax weights are all positive,
so the suppressed entries always carried positive weight). -/
theorem Attention_mask_zeroes_column {B H N : ℕ}
    (dots : Fin B → Fin H → Fin N → Fin N → ℝ)
    (mask : Fin B → Fin N → Bool) (b : Fin B) (j : Fin N)
    (hj : mask b j = true) :
    (∀ h i, Attention.attnMasked dots mask b h i j = 0) ∧
    (∀ h i, ∑ k, Attention.attnMasked dots mask b h i k < 1) := by
  constructor
  · intro h i
    simp [Attention.attnMasked, maskFloat, hj]
  · intro h i
    have hsum : ∑ k, softmaxRow (dots b h i) k = 1 :=
      softmaxRow_sum (Fin.pos j) (dots b h i)
    have hterm : ∀ k, Attention.attnMasked dots mask b h i k
        = softmaxRow (dots b h i) k
          - softmaxRow (dots b h i) k * maskFloat (mask b k) := by
      intro k
      unfold Attention.attnMasked
      ring
    have hle : softmaxRow (dots b h i) j
        ≤ ∑ k, softmaxRow (dots b h i) k * maskFloat (mask b k) := by
      have hsingle := Finset.single_le_sum
        (f := fun k => softmaxRow (dots b h i) k * maskFloat (mask b k))
        (fun k _ => mul_nonneg (le_of_lt (softmaxRow_pos (dots b h i) k))
          (by unfold maskFloat; split <;> norm_num))
        (Finset.mem_univ j)
      simpa [maskFloat, hj] using hsingle
    have hposj := softmaxRow_pos (dots b h i) j
    calc ∑ k, Attention.attnMasked dots mask b h i k
        = (∑ k, softmaxRow (dots b h i) k)
          - ∑ k, softmaxRow (dots b h i) k * maskFloat (mask b k) := by
          rw [← Finset.sum_sub_distrib]
          exact Finset.sum_congr rfl fun k _ => hterm k
      _ = 1 - ∑ k, softmaxRow (dots b h i) k * maskFloat (mask b k) := by
          rw [hsum]
      _ ≤ 1 - softmaxRow (dots b h i) j := by linarith
      _ < 1 := by linarith

/-- Concrete score tensor for the C5 witness: one batch element, one head,
two positions, all scores zero. -/
def dots0 : Fin 1 → Fin 1 → Fin 2 → Fin 2 → ℝ := fun _ _ _ _ => 0

/-- Concrete mask for the C5 witness: key position 1 suppressed. -/
def mask0 : Fin 1 → Fin 2 → Bool := fun _ k => k == 1

theorem Attention_mask_zeroes_column_witness :
    mask0 0 1 = true ∧
    ((∀ h i, Attention.attnMasked dots0 mask0 0 h i 1 = 0) ∧
     (∀ h i, ∑ k, Attention.attnMasked dots0 mask0 0 h i k < 1)) :=
  ⟨by decide, Attention_mask_zeroes_column dots0 mask0 0 1 (by decide)⟩

/-- C6: confirmed.  The layer loop of `Transformer.forward` sends `x` to
`ff (attn x + x)` at every layer: a residual is added around the attention
branch only, and the feed-forward output replaces the representation with
no residual addition, at every layer of the stack. -/
theorem Transformer_layer_update {M : Type} [Add M]
    (layers : List ((M → M) × (M → M))) (x : M) :
    Transformer.runLayers layers x
      = layers.foldl (fun y l => l.2 (l.1 y + y)) x := by
  induction layers generalizing x with
  | nil => rfl
  | cons l rest ih =>
    obtain ⟨attn, ff⟩ := l
    simp [Transformer.runLayers, List.foldl, ih]

/-- C7: confirmed.  The corpus preprocessor writes, in the original order,
a single newline for every line with two or more non-overlapping
occurrences of the literal string " = " and every other line verbatim;
the two concrete lines exercise each branch of the count. -/
theorem corpus_filter_semantics :
    (∀ lines : List String,
      processCorpus lines = String.join (lines.map fun l =>
        if 2 ≤ countMatches " = ".toList l.toList then "\n" else l)) ∧
    processLine " = A = " = "\n" ∧ processLine "a = b" = "a = b" := by
  refine ⟨fun lines => ?_, by decide, by decide⟩
  unfold processCorpus
  congr 1

/-- C10: confirmed.  Queries, keys and values all equal the single
projection `w`, so the pre-softmax score tensor
`dots = matmul(w, w.transpose(-1, -2)) * scale` is symmetric in its last
two indices for every input, batch element and head. -/
theorem Attention_dots_symmetric {B N dim heads dimHead : ℕ}
    (qkvW : Matrix (Fin (heads * dimHead)) (Fin dim) ℝ)
    (x : Fin B → Fin N → Fin dim → ℝ)
    (b : Fin B) (h : Fin heads) (i j : Fin N) :
    Attention.dots qkvW x b h i j = Attention.dots qkvW x b h j i := by
  unfold Attention.dots
  congr 1
  exact Finset.sum_congr rfl fun d _ => mul_comm _ _
